import Mathlib

/-!
Verification of the dfu-cross-usb adapter (src/src/lib.rs): a shallow
embedding of the adapter layer that bridges the dfu_core protocol engine
onto the cross_usb transport.

Representation conventions:
* Machine integers (u8, u16, usize) are modelled as Nat; a lossy Rust cast
  is written with an explicit `% 2 ^ w` (e.g. `buffer.len() as u16` becomes
  `buffer.length % 65536`); lossless widening casts (u8 -> u16) are the
  identity.
* Byte buffers are List Nat.
* The external collaborators (the cross_usb transport and the dfu_core
  protocol constructor) are an environment record of response functions.
* A Rust future is its final value; futures::executor::block_on is the
  identity on that value.  A oneshot-channel receive is an Option: `none`
  models the sender having been dropped without a value, in which case the
  adapter's `.expect` aborts the process; an aborted computation is `none`.
-/

/-- cross_usb::usb::ControlType (the transfer class of a control request). -/
inductive ControlType where
  | Standard
  | Class
  | Vendor
deriving DecidableEq, Repr

/-- cross_usb::usb::Recipient of a control request. -/
inductive Recipient where
  | Device
  | Interface
  | Endpoint
  | Other
deriving DecidableEq, Repr

/-- cross_usb::usb::Error, opaque to this adapter; a code distinguishes values. -/
structure UsbError where
  code : Nat
deriving DecidableEq, Repr

/-- dfu_core::Error, opaque to this adapter. -/
structure DfuCoreError where
  code : Nat
deriving DecidableEq, Repr

/-- std::io::Error as wrapped by the adapter, opaque. -/
structure StdIoError where
  code : Nat
deriving DecidableEq, Repr

/-- Modelled from the spec: dfu_core::functional_descriptor::Error, the
descriptor-parsing collaborator's own error, raised for a structurally
well-formed but semantically invalid descriptor (wrong type byte).  The
collaborator's code is not part of this repository. -/
inductive FdError where
  | WrongTypeByte
deriving DecidableEq, Repr

/-- cross_usb::usb::ControlIn: the parameters of a control-IN transfer. -/
structure ControlIn where
  control_type : ControlType
  recipient : Recipient
  request : Nat
  value : Nat
  index : Nat
  length : Nat
deriving DecidableEq, Repr

/-- cross_usb::usb::ControlOut: the parameters of a control-OUT transfer. -/
structure ControlOut where
  control_type : ControlType
  recipient : Recipient
  request : Nat
  value : Nat
  index : Nat
  data : List Nat
deriving DecidableEq, Repr

/-- usb::standard_request::SET_INTERFACE (USB base specification). -/
def SET_INTERFACE : Nat := 0x0B

/-- usb::standard_request::GET_DESCRIPTOR (USB base specification). -/
def GET_DESCRIPTOR : Nat := 0x06

/-- DFU functional descriptor type (DFU 1.1 Specification, Section 4.2.4). -/
def DFU_FUNCTIONAL_DESCRIPTOR_TYPE : Nat := 0x21

/-- DFU functional descriptor index (DFU 1.1 Specification, Section 4.2.4). -/
def DFU_FUNCTIONAL_DESCRIPTOR_INDEX : Nat := 0x00

/-- src/src/lib.rs lines 210-226: decode the 1-byte request-type field into
the (transfer class, recipient) pair.  `request_type >> 5 & 0x03` is
`request_type / 32 % 4`; `request_type & 0x1f` is `request_type % 32`. -/
def split_request_type (request_type : Nat) : ControlType × Recipient :=
  ( match request_type / 32 % 4 with
    | 0 => ControlType.Standard
    | 1 => ControlType.Class
    | 2 => ControlType.Vendor
    | _ => ControlType.Standard,
    match request_type % 32 with
    | 0 => Recipient.Device
    | 1 => Recipient.Interface
    | 2 => Recipient.Endpoint
    | 3 => Recipient.Other
    | _ => Recipient.Device )

/-- The spec's words for the class decoding (spec section 4.1): bits 5-6,
0 to Standard, 1 to Class, 2 to Vendor, reserved pattern to Standard. -/
def spec_class_of_bits (bits : Nat) : ControlType :=
  if bits = 1 then ControlType.Class
  else if bits = 2 then ControlType.Vendor
  else ControlType.Standard

/-- The spec's words for the recipient decoding (spec section 4.1): bits 0-4,
0 to Device, 1 to Interface, 2 to Endpoint, 3 to Other, all others Device. -/
def spec_recipient_of_bits (bits : Nat) : Recipient :=
  if bits = 1 then Recipient.Interface
  else if bits = 2 then Recipient.Endpoint
  else if bits = 3 then Recipient.Other
  else Recipient.Device

set_option maxRecDepth 8192 in
/-- C2: for every request-type byte, split_request_type is total and returns
the class determined only by bits 5-6 (0 Standard, 1 Class, 2 Vendor,
reserved 3 Standard) and the recipient determined only by bits 0-4
(0 Device, 1 Interface, 2 Endpoint, 3 Other, all other patterns Device);
no bit pattern produces an error. -/
theorem split_request_type_decodes_bits :
    ∀ rt : Fin 256,
      split_request_type rt.val =
        (spec_class_of_bits (rt.val / 32 % 4),
         spec_recipient_of_bits (rt.val % 32)) := by
  decide

/-- The DFU functional descriptor (spec section 3): fixed 9-byte structure
of length, descriptor type, attributes bitmap, detach timeout, transfer
size and bcd DFU version.  The multi-byte fields are little-endian u16. -/
structure FunctionalDescriptor where
  length : Nat
  descriptor_type : Nat
  attributes : Nat
  detach_timeout : Nat
  transfer_size : Nat
  dfu_version : Nat
deriving DecidableEq, Repr

/-- Modelled from the spec:
dfu_core::functional_descriptor::FunctionalDescriptor::from_bytes is owned
by the external protocol-engine collaborator and is not in this repository.
Per spec sections 3, 4.2 and 8: a byte sequence that is not the fixed
9-byte structure (short, absent, malformed) yields no descriptor at all
(none); a 9-byte sequence whose type byte is not 0x21 is structurally
well-formed but semantically invalid and yields the collaborator's own
error; otherwise the descriptor's fields are decoded from the bytes. -/
def FunctionalDescriptor.from_bytes (bytes : List Nat) :
    Option (Except FdError FunctionalDescriptor) :=
  if bytes.length = 9 then
    if bytes[1]! = DFU_FUNCTIONAL_DESCRIPTOR_TYPE then
      some (Except.ok
        { length := bytes[0]!
          descriptor_type := bytes[1]!
          attributes := bytes[2]!
          detach_timeout := bytes[3]! + 256 * bytes[4]!
          transfer_size := bytes[5]! + 256 * bytes[6]!
          dfu_version := bytes[7]! + 256 * bytes[8]! })
    else some (Except.error FdError.WrongTypeByte)
  else none

/-- dfu_core::DfuProtocol, opaque to this adapter; constructed once per
session by the external protocol engine. -/
structure DfuProtocol where
  code : Nat
deriving DecidableEq, Repr

/-- src/src/lib.rs lines 24-40: the adapter's error type.  Each transparent
variant wraps the collaborator's own error unchanged. -/
inductive Error where
  | DeviceNotFound
  | FunctionalDescriptorNotFound
  | AltSettingNotFound
  | FunctionalDescriptor (e : FdError)
  | Dfu (e : DfuCoreError)
  | WebUsb (e : UsbError)
  | StdIo (e : StdIoError)
deriving DecidableEq, Repr

/-- The external collaborators' behaviour, one response function per call
the adapter makes: the cross_usb transport (open, open_interface,
control_in, control_out, reset) and the dfu_core protocol constructor. -/
structure Env where
  open_device : Except UsbError Unit
  open_interface : Nat → Except UsbError Unit
  control_out_result : ControlOut → Except UsbError Nat
  control_in_result : ControlIn → Except UsbError (List Nat)
  reset_result : Except UsbError Unit
  protocol_new : String → Nat → Except DfuCoreError DfuProtocol

/-- src/src/lib.rs lines 42-48: the opened adapter state.  The device and
interface resource handles are owned by the environment here; the fields
the transfer logic reads are kept. -/
structure DfuCrossUsb where
  interface_number : Nat
  descriptor : FunctionalDescriptor
  protocol : DfuProtocol
deriving DecidableEq, Repr

/-- An observable step of DfuCrossUsb::open, for stating ordering: a
control-OUT issued, a control-IN issued, or the protocol constructor
called with an interface string and a DFU version. -/
inductive Event where
  | controlOut (c : ControlOut)
  | controlIn (c : ControlIn)
  | protocolInit (interface_string : String) (dfu_version : Nat)
deriving DecidableEq, Repr

/-- src/src/lib.rs lines 72-81: the SET_INTERFACE control-OUT request built
by open (alt_setting and interface_number are u8, so the u16 casts are the
identity). -/
def set_interface_request (interface_number alt_setting : Nat) : ControlOut :=
  { control_type := ControlType.Standard
    recipient := Recipient.Interface
    request := SET_INTERFACE
    value := alt_setting
    index := interface_number
    data := [] }

/-- src/src/lib.rs lines 85-95: the GET_DESCRIPTOR control-IN request built
by open: wValue is the descriptor type in the high byte and the descriptor
index in the low byte, and the length is the fixed 9-byte descriptor size. -/
def get_descriptor_request (interface_number : Nat) : ControlIn :=
  { control_type := ControlType.Standard
    recipient := Recipient.Interface
    request := GET_DESCRIPTOR
    value := (DFU_FUNCTIONAL_DESCRIPTOR_TYPE <<< 8) ||| DFU_FUNCTIONAL_DESCRIPTOR_INDEX
    index := interface_number
    length := 9 }

/-- src/src/lib.rs lines 60-115: DfuCrossUsb::open.  Returns the trace of
observable steps together with the result; every `?` on a transport call
wraps the transport error in Error.WebUsb, the absent descriptor becomes
Error.FunctionalDescriptorNotFound, and the descriptor parser's and
protocol constructor's errors are forwarded. -/
def DfuCrossUsb.open_dfu (env : Env) (interface_number alt_setting : Nat) :
    List Event × Except Error DfuCrossUsb :=
  match env.open_device with
  | Except.error e => ([], Except.error (Error.WebUsb e))
  | Except.ok _ =>
  match env.open_interface interface_number with
  | Except.error e => ([], Except.error (Error.WebUsb e))
  | Except.ok _ =>
  let c_out := set_interface_request interface_number alt_setting
  match env.control_out_result c_out with
  | Except.error e => ([Event.controlOut c_out], Except.error (Error.WebUsb e))
  | Except.ok _ =>
  let c_in := get_descriptor_request interface_number
  match env.control_in_result c_in with
  | Except.error e =>
      ([Event.controlOut c_out, Event.controlIn c_in],
       Except.error (Error.WebUsb e))
  | Except.ok descriptor_bytes =>
  match FunctionalDescriptor.from_bytes descriptor_bytes with
  | none =>
      ([Event.controlOut c_out, Event.controlIn c_in],
       Except.error Error.FunctionalDescriptorNotFound)
  | some (Except.error e) =>
      ([Event.controlOut c_out, Event.controlIn c_in],
       Except.error (Error.FunctionalDescriptor e))
  | some (Except.ok descriptor) =>
  match env.protocol_new "" descriptor.dfu_version with
  | Except.error e =>
      ([Event.controlOut c_out, Event.controlIn c_in,
        Event.protocolInit "" descriptor.dfu_version],
       Except.error (Error.Dfu e))
  | Except.ok protocol =>
      ([Event.controlOut c_out, Event.controlIn c_in,
        Event.protocolInit "" descriptor.dfu_version],
       Except.ok { interface_number, descriptor, protocol })

/-- futures::executor::block_on: in this embedding a future is its final
value, so driving it to completion on the calling thread is the identity. -/
def block_on (x : α) : α := x

/-- futures::channel::oneshot: tx.send(v).expect(..) on the completion
handoff.  Sending succeeds when the receiving side is still alive; when it
was dropped the expect aborts the process (none). -/
def oneshot_send_expect (receiver_alive : Bool) : Option Unit :=
  if receiver_alive then some () else none

/-- src/src/lib.rs lines 143-154: the control-IN request built by
DfuCrossUsb::read_control.  `self.interface_number as u16` is the identity
on a u8; `buffer.len() as u16` truncates the usize length modulo 2^16. -/
def read_control_request (st : DfuCrossUsb) (request_type request value : Nat)
    (buffer_len : Nat) : ControlIn :=
  { control_type := (split_request_type request_type).1
    recipient := (split_request_type request_type).2
    request := request
    value := value
    index := st.interface_number
    length := buffer_len % 65536 }

/-- src/src/lib.rs lines 161-168: the completion half of read_control.
rx.await yields none when the sending side was dropped without a value, in
which case the expect aborts (none); a transport error propagates through
`?`; otherwise min(received, buffer length) bytes are copied into the front
of the buffer and that count is returned together with the updated buffer. -/
def read_control_await (rx : Option (Except UsbError (List Nat)))
    (buffer : List Nat) : Option (Except Error (Nat × List Nat)) :=
  match rx with
  | none => none
  | some (Except.error e) => some (Except.error (Error.WebUsb e))
  | some (Except.ok bytes) =>
      let len := min bytes.length buffer.length
      some (Except.ok (len, bytes.take len ++ buffer.drop len))

/-- src/src/lib.rs lines 131-169: DfuCrossUsb::read_control.  The spawned
task issues the control-IN transfer and sends its result over the handoff
channel; under correct scheduling the receive yields that result (some).
Returns the issued request together with the completed result. -/
def DfuCrossUsb.read_control (st : DfuCrossUsb) (env : Env)
    (request_type request value : Nat) (buffer : List Nat) :
    ControlIn × Option (Except Error (Nat × List Nat)) :=
  let c_in := read_control_request st request_type request value buffer.length
  (c_in, read_control_await (some (env.control_in_result c_in)) buffer)

/-- src/src/lib.rs lines 183-194: the control-OUT request built by
DfuCrossUsb::write_control; the payload buffer is copied into the task. -/
def write_control_request (st : DfuCrossUsb) (request_type request value : Nat)
    (buffer : List Nat) : ControlOut :=
  { control_type := (split_request_type request_type).1
    recipient := (split_request_type request_type).2
    request := request
    value := value
    index := st.interface_number
    data := buffer }

/-- src/src/lib.rs lines 201-206: the completion half of write_control:
abort on a dropped sender, propagate a transport error, otherwise return
the transport-reported bytes-written count. -/
def write_control_await (rx : Option (Except UsbError Nat)) :
    Option (Except Error Nat) :=
  match rx with
  | none => none
  | some (Except.error e) => some (Except.error (Error.WebUsb e))
  | some (Except.ok n) => some (Except.ok n)

/-- src/src/lib.rs lines 171-207: DfuCrossUsb::write_control, with the same
spawn-and-handoff shape as read_control. -/
def DfuCrossUsb.write_control (st : DfuCrossUsb) (env : Env)
    (request_type request value : Nat) (buffer : List Nat) :
    ControlOut × Option (Except Error Nat) :=
  let c_out := write_control_request st request_type request value buffer
  (c_out, write_control_await (some (env.control_out_result c_out)))

/-- src/src/lib.rs line 304: the completion half of the asynchronous
usb_reset: abort on a dropped sender, otherwise Ok(result?). -/
def usb_reset_await (rx : Option (Except UsbError Unit)) :
    Option (Except Error Unit) :=
  match rx with
  | none => none
  | some (Except.error e) => some (Except.error (Error.WebUsb e))
  | some (Except.ok u) => some (Except.ok u)

/-- src/src/lib.rs lines 235-243: dfu_core::DfuIo::read_control for
DfuCrossUsb drives the shared inner read_control to completion with
block_on. -/
def sync_read_control (st : DfuCrossUsb) (env : Env)
    (request_type request value : Nat) (buffer : List Nat) :
    ControlIn × Option (Except Error (Nat × List Nat)) :=
  block_on (st.read_control env request_type request value buffer)

/-- src/src/lib.rs lines 245-253: dfu_core::DfuIo::write_control for
DfuCrossUsb drives the shared inner write_control to completion with
block_on. -/
def sync_write_control (st : DfuCrossUsb) (env : Env)
    (request_type request value : Nat) (buffer : List Nat) :
    ControlOut × Option (Except Error Nat) :=
  block_on (st.write_control env request_type request value buffer)

/-- src/src/lib.rs lines 255-257: dfu_core::DfuIo::usb_reset for
DfuCrossUsb: Ok(block_on(self.device.reset())?), no handoff channel. -/
def sync_usb_reset (env : Env) : Except Error Unit :=
  match block_on env.reset_result with
  | Except.error e => Except.error (Error.WebUsb e)
  | Except.ok u => Except.ok u

/-- src/src/lib.rs lines 275-283: the asynchronous read_control of
dfu_core::asynchronous::DfuAsyncIo delegates to the shared inner
read_control. -/
def async_read_control (st : DfuCrossUsb) (env : Env)
    (request_type request value : Nat) (buffer : List Nat) :
    ControlIn × Option (Except Error (Nat × List Nat)) :=
  st.read_control env request_type request value buffer

/-- src/src/lib.rs lines 285-293: the asynchronous write_control delegates
to the shared inner write_control. -/
def async_write_control (st : DfuCrossUsb) (env : Env)
    (request_type request value : Nat) (buffer : List Nat) :
    ControlOut × Option (Except Error Nat) :=
  st.write_control env request_type request value buffer

/-- src/src/lib.rs lines 295-305: the asynchronous usb_reset spawns the
device reset and awaits the handoff; under correct scheduling the receive
yields the spawned task's result. -/
def async_usb_reset (env : Env) : Option (Except Error Unit) :=
  usb_reset_await (some env.reset_result)

/-- Every run of open produces one of four traces: nothing issued (device or
interface open failed), the SET_INTERFACE transfer alone, SET_INTERFACE then
the descriptor fetch, or all three steps; only the last can succeed. -/
lemma open_dfu_cases (env : Env) (i a : Nat) :
    (∃ er, DfuCrossUsb.open_dfu env i a = ([], Except.error er)) ∨
    (∃ er, DfuCrossUsb.open_dfu env i a =
      ([Event.controlOut (set_interface_request i a)], Except.error er)) ∨
    (∃ er, DfuCrossUsb.open_dfu env i a =
      ([Event.controlOut (set_interface_request i a),
        Event.controlIn (get_descriptor_request i)], Except.error er)) ∨
    (∃ v r, DfuCrossUsb.open_dfu env i a =
      ([Event.controlOut (set_interface_request i a),
        Event.controlIn (get_descriptor_request i),
        Event.protocolInit "" v], r)) := by
  rcases hd : env.open_device with e | u
  · exact Or.inl ⟨Error.WebUsb e, by simp [DfuCrossUsb.open_dfu, hd]⟩
  rcases hi : env.open_interface i with e | u2
  · exact Or.inl ⟨Error.WebUsb e, by simp [DfuCrossUsb.open_dfu, hd, hi]⟩
  rcases ho : env.control_out_result (set_interface_request i a) with e | n
  · exact Or.inr (Or.inl ⟨Error.WebUsb e,
      by simp [DfuCrossUsb.open_dfu, hd, hi, ho]⟩)
  rcases hin : env.control_in_result (get_descriptor_request i) with e | bytes
  · exact Or.inr (Or.inr (Or.inl ⟨Error.WebUsb e,
      by simp [DfuCrossUsb.open_dfu, hd, hi, ho, hin]⟩))
  rcases hfb : FunctionalDescriptor.from_bytes bytes with _ | r
  · exact Or.inr (Or.inr (Or.inl ⟨Error.FunctionalDescriptorNotFound,
      by simp [DfuCrossUsb.open_dfu, hd, hi, ho, hin, hfb]⟩))
  rcases r with e | d
  · exact Or.inr (Or.inr (Or.inl ⟨Error.FunctionalDescriptor e,
      by simp [DfuCrossUsb.open_dfu, hd, hi, ho, hin, hfb]⟩))
  rcases hp : env.protocol_new "" d.dfu_version with e | p
  · exact Or.inr (Or.inr (Or.inr ⟨d.dfu_version, Except.error (Error.Dfu e),
      by simp [DfuCrossUsb.open_dfu, hd, hi, ho, hin, hfb, hp]⟩))
  · exact Or.inr (Or.inr (Or.inr ⟨d.dfu_version,
      Except.ok { interface_number := i, descriptor := d, protocol := p },
      by simp [DfuCrossUsb.open_dfu, hd, hi, ho, hin, hfb, hp]⟩))

/-- An environment whose transport answers every call successfully and
returns the spec section 8 example descriptor bytes for the fetch. -/
def env_ok : Env :=
  { open_device := Except.ok ()
    open_interface := fun _ => Except.ok ()
    control_out_result := fun _ => Except.ok 0
    control_in_result := fun _ => Except.ok [9, 0x21, 0x0B, 255, 0, 0, 8, 0x10, 0x01]
    reset_result := Except.ok ()
    protocol_new := fun _ v => Except.ok { code := v } }

/-- An environment whose transport rejects every control-OUT transfer with
fault code 7 and otherwise succeeds. -/
def env_reject_out : Env :=
  { open_device := Except.ok ()
    open_interface := fun _ => Except.ok ()
    control_out_result := fun _ => Except.error { code := 7 }
    control_in_result := fun _ => Except.ok [9, 0x21, 0x0B, 255, 0, 0, 8, 0x10, 0x01]
    reset_result := Except.ok ()
    protocol_new := fun _ v => Except.ok { code := v } }

/-- An environment whose transport returns only 3 bytes for the descriptor
fetch and otherwise succeeds. -/
def env_short_descriptor : Env :=
  { open_device := Except.ok ()
    open_interface := fun _ => Except.ok ()
    control_out_result := fun _ => Except.ok 0
    control_in_result := fun _ => Except.ok [1, 2, 3]
    reset_result := Except.ok ()
    protocol_new := fun _ v => Except.ok { code := v } }

/-- An environment whose transport returns 4 bytes for every control-IN
transfer and otherwise succeeds. -/
def env_four_bytes : Env :=
  { open_device := Except.ok ()
    open_interface := fun _ => Except.ok ()
    control_out_result := fun _ => Except.ok 0
    control_in_result := fun _ => Except.ok [5, 6, 7, 8]
    reset_result := Except.ok ()
    protocol_new := fun _ v => Except.ok { code := v } }

/-- A concrete opened adapter state used to instantiate the theorems. -/
def st_if0 : DfuCrossUsb :=
  { interface_number := 0
    descriptor :=
      { length := 9, descriptor_type := 0x21, attributes := 0x0B
        detach_timeout := 255, transfer_size := 2048, dfu_version := 0x0110 }
    protocol := { code := 0x0110 } }

/-- C5: in every run of open the steps happen in strict order: a successful
run's trace is exactly SET_INTERFACE, then the descriptor fetch, then the
protocol constructor; every trace is an ordered front segment of those
three steps; and if any earlier step fails no later step is attempted: a
failed device or interface open issues nothing, a transport-rejected
SET_INTERFACE means the descriptor fetch and the constructor are never
attempted, and a failed fetch or a byte sequence the parser yields no
descriptor from means the constructor is never called. -/
theorem open_orders_steps (env : Env) (interface_number alt_setting : Nat) :
    (∀ st, (DfuCrossUsb.open_dfu env interface_number alt_setting).2 = Except.ok st →
      ∃ v, (DfuCrossUsb.open_dfu env interface_number alt_setting).1 =
        [Event.controlOut (set_interface_request interface_number alt_setting),
         Event.controlIn (get_descriptor_request interface_number),
         Event.protocolInit "" v]) ∧
    ((DfuCrossUsb.open_dfu env interface_number alt_setting).1 = [] ∨
     (DfuCrossUsb.open_dfu env interface_number alt_setting).1 =
       [Event.controlOut (set_interface_request interface_number alt_setting)] ∨
     (DfuCrossUsb.open_dfu env interface_number alt_setting).1 =
       [Event.controlOut (set_interface_request interface_number alt_setting),
        Event.controlIn (get_descriptor_request interface_number)] ∨
     ∃ v, (DfuCrossUsb.open_dfu env interface_number alt_setting).1 =
       [Event.controlOut (set_interface_request interface_number alt_setting),
        Event.controlIn (get_descriptor_request interface_number),
        Event.protocolInit "" v]) ∧
    (∀ e, env.open_device = Except.error e →
      (DfuCrossUsb.open_dfu env interface_number alt_setting).1 = []) ∧
    (∀ e, env.open_interface interface_number = Except.error e →
      (DfuCrossUsb.open_dfu env interface_number alt_setting).1 = []) ∧
    (∀ e, env.control_out_result
        (set_interface_request interface_number alt_setting) = Except.error e →
      (∀ c, Event.controlIn c ∉
        (DfuCrossUsb.open_dfu env interface_number alt_setting).1) ∧
      (∀ s v, Event.protocolInit s v ∉
        (DfuCrossUsb.open_dfu env interface_number alt_setting).1)) ∧
    (∀ e, env.control_in_result (get_descriptor_request interface_number) =
        Except.error e →
      ∀ s v, Event.protocolInit s v ∉
        (DfuCrossUsb.open_dfu env interface_number alt_setting).1) ∧
    (∀ bytes, env.control_in_result (get_descriptor_request interface_number) =
        Except.ok bytes →
      (∀ d, FunctionalDescriptor.from_bytes bytes ≠ some (Except.ok d)) →
      ∀ s v, Event.protocolInit s v ∉
        (DfuCrossUsb.open_dfu env interface_number alt_setting).1) := by
  rcases hd : env.open_device with e0 | u0
  · have hs : DfuCrossUsb.open_dfu env interface_number alt_setting =
        ([], Except.error (Error.WebUsb e0)) := by
      simp [DfuCrossUsb.open_dfu, hd]
    rw [hs]
    refine ⟨?_, ?_, ?_, ?_, ?_, ?_, ?_⟩ <;> simp
  rcases hi : env.open_interface interface_number with e1 | u1
  · have hs : DfuCrossUsb.open_dfu env interface_number alt_setting =
        ([], Except.error (Error.WebUsb e1)) := by
      simp [DfuCrossUsb.open_dfu, hd, hi]
    rw [hs]
    refine ⟨?_, ?_, ?_, ?_, ?_, ?_, ?_⟩ <;> simp
  rcases ho : env.control_out_result
      (set_interface_request interface_number alt_setting) with e2 | n
  · have hs : DfuCrossUsb.open_dfu env interface_number alt_setting =
        ([Event.controlOut (set_interface_request interface_number alt_setting)],
         Except.error (Error.WebUsb e2)) := by
      simp [DfuCrossUsb.open_dfu, hd, hi, ho]
    rw [hs]
    refine ⟨?_, ?_, ?_, ?_, ?_, ?_, ?_⟩ <;> simp [hd, hi]
  rcases hin : env.control_in_result
      (get_descriptor_request interface_number) with e3 | bytes
  · have hs : DfuCrossUsb.open_dfu env interface_number alt_setting =
        ([Event.controlOut (set_interface_request interface_number alt_setting),
          Event.controlIn (get_descriptor_request interface_number)],
         Except.error (Error.WebUsb e3)) := by
      simp [DfuCrossUsb.open_dfu, hd, hi, ho, hin]
    rw [hs]
    refine ⟨?_, ?_, ?_, ?_, ?_, ?_, ?_⟩ <;> simp [hd, hi, ho, hin]
  rcases hfb : FunctionalDescriptor.from_bytes bytes with _ | r
  · have hs : DfuCrossUsb.open_dfu env interface_number alt_setting =
        ([Event.controlOut (set_interface_request interface_number alt_setting),
          Event.controlIn (get_descriptor_request interface_number)],
         Except.error Error.FunctionalDescriptorNotFound) := by
      simp [DfuCrossUsb.open_dfu, hd, hi, ho, hin, hfb]
    rw [hs]
    refine ⟨?_, ?_, ?_, ?_, ?_, ?_, ?_⟩ <;> simp [hd, hi, ho, hin]
  rcases r with e4 | d
  · have hs : DfuCrossUsb.open_dfu env interface_number alt_setting =
        ([Event.controlOut (set_interface_request interface_number alt_setting),
          Event.controlIn (get_descriptor_request interface_number)],
         Except.error (Error.FunctionalDescriptor e4)) := by
      simp [DfuCrossUsb.open_dfu, hd, hi, ho, hin, hfb]
    rw [hs]
    refine ⟨?_, ?_, ?_, ?_, ?_, ?_, ?_⟩ <;> simp [hd, hi, ho, hin]
  rcases hp : env.protocol_new "" d.dfu_version with e5 | p
  · have hs : DfuCrossUsb.open_dfu env interface_number alt_setting =
        ([Event.controlOut (set_interface_request interface_number alt_setting),
          Event.controlIn (get_descriptor_request interface_number),
          Event.protocolInit "" d.dfu_version],
         Except.error (Error.Dfu e5)) := by
      simp [DfuCrossUsb.open_dfu, hd, hi, ho, hin, hfb, hp]
    rw [hs]
    refine ⟨?_, Or.inr (Or.inr (Or.inr ⟨d.dfu_version, rfl⟩)), ?_, ?_, ?_, ?_, ?_⟩
    · intro st hok; simp at hok
    · intro e h; simp [hd] at h
    · intro e h; simp [hi] at h
    · intro e h; simp [ho] at h
    · intro e h; simp [hin] at h
    · intro bytes' hb hno
      injection hb with hbb
      subst hbb
      exact absurd hfb (hno d)
  · have hs : DfuCrossUsb.open_dfu env interface_number alt_setting =
        ([Event.controlOut (set_interface_request interface_number alt_setting),
          Event.controlIn (get_descriptor_request interface_number),
          Event.protocolInit "" d.dfu_version],
         Except.ok { interface_number := interface_number,
                     descriptor := d, protocol := p }) := by
      simp [DfuCrossUsb.open_dfu, hd, hi, ho, hin, hfb, hp]
    rw [hs]
    refine ⟨fun st _ => ⟨d.dfu_version, rfl⟩,
      Or.inr (Or.inr (Or.inr ⟨d.dfu_version, rfl⟩)), ?_, ?_, ?_, ?_, ?_⟩
    · intro e h; simp [hd] at h
    · intro e h; simp [hi] at h
    · intro e h; simp [ho] at h
    · intro e h; simp [hin] at h
    · intro bytes' hb hno
      injection hb with hbb
      subst hbb
      exact absurd hfb (hno d)

/-- C6: every control-IN transfer issued by open (the descriptor fetch) uses
the Standard class, the Interface recipient, the standard GET_DESCRIPTOR
request code, the value 0x2100 (descriptor type 0x21 in the high byte,
index 0 in the low byte) and a requested length of exactly 9 bytes. -/
theorem open_descriptor_fetch_request_fields (env : Env)
    (interface_number alt_setting : Nat) (c : ControlIn)
    (hmem : Event.controlIn c ∈
      (DfuCrossUsb.open_dfu env interface_number alt_setting).1) :
    c.control_type = ControlType.Standard ∧
    c.recipient = Recipient.Interface ∧
    c.request = GET_DESCRIPTOR ∧
    c.value = 0x2100 ∧
    c.length = 9 := by
  have hc : c = get_descriptor_request interface_number := by
    obtain ⟨er, h⟩ | ⟨er, h⟩ | ⟨er, h⟩ | ⟨v, r, h⟩ :=
      open_dfu_cases env interface_number alt_setting <;> rw [h] at hmem <;>
      simp at hmem <;> exact hmem
  subst hc
  have hval : (33 : Nat) <<< 8 = 8448 := by decide
  refine ⟨rfl, rfl, rfl, by norm_num [get_descriptor_request,
    DFU_FUNCTIONAL_DESCRIPTOR_TYPE, DFU_FUNCTIONAL_DESCRIPTOR_INDEX, hval], rfl⟩

/-- C6 witness: in the all-successful environment the descriptor fetch is
issued and its fields are the fixed wire-level constants. -/
theorem open_descriptor_fetch_request_fields_witness :
    (get_descriptor_request 0).control_type = ControlType.Standard ∧
    (get_descriptor_request 0).recipient = Recipient.Interface ∧
    (get_descriptor_request 0).request = GET_DESCRIPTOR ∧
    (get_descriptor_request 0).value = 0x2100 ∧
    (get_descriptor_request 0).length = 9 :=
  open_descriptor_fetch_request_fields env_ok 0 0 (get_descriptor_request 0)
    (by decide)

/-- C3 counterexample: in a concrete environment whose transport rejects
the SET_INTERFACE control-OUT transfer with fault code 7, open does not
fail with Error.AltSettingNotFound (that variant is declared in the source
but never constructed); it fails with the wrapped transport error. -/
theorem set_interface_rejection_not_alt_setting_error :
    env_reject_out.control_out_result (set_interface_request 0 0) =
      Except.error { code := 7 } ∧
    (DfuCrossUsb.open_dfu env_reject_out 0 0).2 =
      Except.error (Error.WebUsb { code := 7 }) ∧
    (DfuCrossUsb.open_dfu env_reject_out 0 0).2 ≠
      Except.error Error.AltSettingNotFound := by
  refine ⟨rfl, rfl, ?_⟩
  rw [show (DfuCrossUsb.open_dfu env_reject_out 0 0).2 =
    Except.error (Error.WebUsb { code := 7 }) from rfl]
  simp

/-- C3 amended: if the transport rejects the SET_INTERFACE control-OUT
transfer during open (after the device and interface opened), open fails
with the transparently wrapped transport error (the WebUsb variant), not
with AltSettingNotFound, and it does so before any descriptor fetch is
attempted: no control-IN transfer appears in the run's trace. -/
theorem set_interface_rejection_propagates_transport_error
    (env : Env) (interface_number alt_setting : Nat) (e : UsbError)
    (hd : env.open_device = Except.ok ())
    (hi : env.open_interface interface_number = Except.ok ())
    (ho : env.control_out_result
      (set_interface_request interface_number alt_setting) = Except.error e) :
    (DfuCrossUsb.open_dfu env interface_number alt_setting).2 =
      Except.error (Error.WebUsb e) ∧
    ∀ c, Event.controlIn c ∉
      (DfuCrossUsb.open_dfu env interface_number alt_setting).1 := by
  have h : DfuCrossUsb.open_dfu env interface_number alt_setting =
      ([Event.controlOut (set_interface_request interface_number alt_setting)],
       Except.error (Error.WebUsb e)) := by
    simp [DfuCrossUsb.open_dfu, hd, hi, ho]
  rw [h]
  exact ⟨rfl, by simp⟩

/-- C3 witness: the amended theorem applied to the rejecting environment. -/
theorem set_interface_rejection_propagates_transport_error_witness :
    (DfuCrossUsb.open_dfu env_reject_out 0 0).2 =
      Except.error (Error.WebUsb { code := 7 }) ∧
    ∀ c, Event.controlIn c ∉ (DfuCrossUsb.open_dfu env_reject_out 0 0).1 :=
  set_interface_rejection_propagates_transport_error env_reject_out 0 0
    { code := 7 } rfl rfl rfl

/-- C4: for every byte sequence the descriptor fetch returns, if the parser
yields no descriptor (the sequence is not the 9-byte structure: short or
absent), open fails with FunctionalDescriptorNotFound; if the sequence is
structurally well-formed (9 bytes) but its type byte is wrong, open fails
with the descriptor-parsing collaborator's own forwarded error; and in no
failure case is a partially-populated descriptor returned: a returned
adapter state always carries the fully parsed descriptor of the bytes. -/
theorem descriptor_parse_failure_modes
    (env : Env) (interface_number alt_setting k : Nat) (bytes : List Nat)
    (hd : env.open_device = Except.ok ())
    (hi : env.open_interface interface_number = Except.ok ())
    (ho : env.control_out_result
      (set_interface_request interface_number alt_setting) = Except.ok k)
    (hin : env.control_in_result (get_descriptor_request interface_number) =
      Except.ok bytes) :
    (bytes.length ≠ 9 →
      (DfuCrossUsb.open_dfu env interface_number alt_setting).2 =
        Except.error Error.FunctionalDescriptorNotFound) ∧
    (bytes.length = 9 → bytes[1]! ≠ DFU_FUNCTIONAL_DESCRIPTOR_TYPE →
      (DfuCrossUsb.open_dfu env interface_number alt_setting).2 =
        Except.error (Error.FunctionalDescriptor FdError.WrongTypeByte)) ∧
    (∀ st, (DfuCrossUsb.open_dfu env interface_number alt_setting).2 =
        Except.ok st →
      FunctionalDescriptor.from_bytes bytes = some (Except.ok st.descriptor)) := by
  refine ⟨?_, ?_, ?_⟩
  · intro h
    simp [DfuCrossUsb.open_dfu, hd, hi, ho, hin,
      FunctionalDescriptor.from_bytes, h]
  · intro h9 ht
    simp [DfuCrossUsb.open_dfu, hd, hi, ho, hin,
      FunctionalDescriptor.from_bytes, h9, ht]
  · intro st hok
    rcases hfb : FunctionalDescriptor.from_bytes bytes with _ | r
    · simp [DfuCrossUsb.open_dfu, hd, hi, ho, hin, hfb] at hok
    rcases r with e | d
    · simp [DfuCrossUsb.open_dfu, hd, hi, ho, hin, hfb] at hok
    rcases hp : env.protocol_new "" d.dfu_version with e | p
    · simp [DfuCrossUsb.open_dfu, hd, hi, ho, hin, hfb, hp] at hok
    · simp [DfuCrossUsb.open_dfu, hd, hi, ho, hin, hfb, hp] at hok
      subst hok
      rfl

/-- C4 witness: an environment returning only 3 descriptor bytes makes open
fail with FunctionalDescriptorNotFound. -/
theorem descriptor_parse_failure_modes_witness :
    (DfuCrossUsb.open_dfu env_short_descriptor 0 0).2 =
      Except.error Error.FunctionalDescriptorNotFound :=
  (descriptor_parse_failure_modes env_short_descriptor 0 0 0 [1, 2, 3]
    rfl rfl rfl rfl).1 (by decide)

/-- C1: for every control-IN transfer through read_control (the one
completion path shared by the sync and async surfaces), if the transport
returns n bytes and the destination buffer holds m, exactly min(n, m)
bytes are copied into the front of the buffer, the rest of the buffer is
unchanged, the returned count is min(n, m), and no error is raised even
when n is larger than m (the excess is discarded). -/
theorem read_control_truncates_to_buffer (st : DfuCrossUsb) (env : Env)
    (request_type request value : Nat) (buffer bytes : List Nat)
    (h : env.control_in_result
      (read_control_request st request_type request value buffer.length) =
      Except.ok bytes) :
    ∃ out : List Nat,
      (st.read_control env request_type request value buffer).2 =
        some (Except.ok (min bytes.length buffer.length, out)) ∧
      out.length = buffer.length ∧
      out.take (min bytes.length buffer.length) =
        bytes.take (min bytes.length buffer.length) ∧
      out.drop (min bytes.length buffer.length) =
        buffer.drop (min bytes.length buffer.length) := by
  refine ⟨bytes.take (min bytes.length buffer.length) ++
    buffer.drop (min bytes.length buffer.length), ?_, ?_, ?_, ?_⟩
  · simp [DfuCrossUsb.read_control, read_control_await, h]
  · simp only [List.length_append, List.length_take, List.length_drop]
    omega
  · exact List.take_left' (by simp only [List.length_take]; omega)
  · exact List.drop_left' (by simp only [List.length_take]; omega)

/-- C1 witness: a transport answering 4 bytes against a 2-byte buffer
copies exactly 2 bytes, leaves the count at 2, and raises no error. -/
theorem read_control_truncates_to_buffer_witness :
    ∃ out : List Nat,
      (st_if0.read_control env_four_bytes 33 3 5 [0, 0]).2 =
        some (Except.ok (min (List.length ([5, 6, 7, 8] : List Nat))
          (List.length ([0, 0] : List Nat)), out)) := by
  obtain ⟨out, h1, -, -, -⟩ :=
    read_control_truncates_to_buffer st_if0 env_four_bytes 33 3 5 [0, 0]
      [5, 6, 7, 8] rfl
  exact ⟨out, h1⟩

/-- C7: the adapter's operations return typed results and the only aborts
are the two handoff-contract violations: each completion function aborts
(none) exactly when the oneshot receive observes the sending side dropped
without a value, the oneshot send aborts exactly when the receiving side
was dropped, and under correct scheduling (the spawned task runs and its
send is received) every operation delivers a typed result. -/
theorem abort_only_on_handoff_violation :
    (∀ (rx : Option (Except UsbError (List Nat))) (buffer : List Nat),
        read_control_await rx buffer = none ↔ rx = none) ∧
    (∀ rx : Option (Except UsbError Nat),
        write_control_await rx = none ↔ rx = none) ∧
    (∀ rx : Option (Except UsbError Unit),
        usb_reset_await rx = none ↔ rx = none) ∧
    (∀ receiver_alive : Bool,
        oneshot_send_expect receiver_alive = none ↔ receiver_alive = false) ∧
    (∀ (st : DfuCrossUsb) (env : Env) (rt rq v : Nat) (buffer : List Nat),
        (st.read_control env rt rq v buffer).2 ≠ none) ∧
    (∀ (st : DfuCrossUsb) (env : Env) (rt rq v : Nat) (buffer : List Nat),
        (st.write_control env rt rq v buffer).2 ≠ none) ∧
    (∀ env : Env, async_usb_reset env ≠ none) := by
  refine ⟨?_, ?_, ?_, ?_, ?_, ?_, ?_⟩
  · rintro (_ | (e | bytes)) buffer <;> simp [read_control_await]
  · rintro (_ | (e | n)) <;> simp [write_control_await]
  · rintro (_ | (e | u)) <;> simp [usb_reset_await]
  · rintro (_ | _) <;> simp [oneshot_send_expect]
  · intro st env rt rq v buffer
    rcases h : env.control_in_result
        (read_control_request st rt rq v buffer.length) with e | bytes <;>
      simp [DfuCrossUsb.read_control, read_control_await, h]
  · intro st env rt rq v buffer
    rcases h : env.control_out_result
        (write_control_request st rt rq v buffer) with e | n <;>
      simp [DfuCrossUsb.write_control, write_control_await, h]
  · intro env
    rcases h : env.reset_result with e | u <;>
      simp [async_usb_reset, usb_reset_await, h]

/-- C8: each synchronous adapter operation returns the same result as
driving the corresponding asynchronous operation to completion: the sync
read_control and write_control are block_on of the one shared transfer
logic the async surface exposes, and the sync usb_reset's result is
exactly the value the async usb_reset's handoff delivers. -/
theorem sync_ops_equal_async_ops (st : DfuCrossUsb) (env : Env)
    (request_type request value : Nat) (buffer payload : List Nat) :
    sync_read_control st env request_type request value buffer =
      async_read_control st env request_type request value buffer ∧
    sync_write_control st env request_type request value payload =
      async_write_control st env request_type request value payload ∧
    async_usb_reset env = some (sync_usb_reset env) := by
  refine ⟨rfl, rfl, ?_⟩
  rcases h : env.reset_result with e | u <;>
    simp [async_usb_reset, usb_reset_await, sync_usb_reset, block_on, h]

/-- C9: the length field of the control-IN transfer issued by read_control
is the destination buffer's length reduced modulo 2^16 (the usize length is
cast to u16), so for any buffer longer than 65535 bytes the requested
length silently wraps and is strictly smaller than the buffer. -/
theorem read_control_length_field_wraps (st : DfuCrossUsb) (env : Env)
    (request_type request value : Nat) (buffer : List Nat) :
    ((st.read_control env request_type request value buffer).1).length =
      buffer.length % 65536 ∧
    (65535 < buffer.length →
      ((st.read_control env request_type request value buffer).1).length <
        buffer.length) := by
  refine ⟨rfl, ?_⟩
  intro h
  show buffer.length % 65536 < buffer.length
  have h2 : buffer.length % 65536 < 65536 := Nat.mod_lt _ (by omega)
  omega

/-- C9 witness: a 70000-byte buffer yields a wrapped request length that is
strictly smaller than the buffer. -/
theorem read_control_length_field_wraps_witness :
    ((st_if0.read_control env_four_bytes 0 0 0
      (List.replicate 70000 0)).1).length <
      (List.replicate 70000 (0 : Nat)).length := by
  apply (read_control_length_field_wraps st_if0 env_four_bytes 0 0 0
    (List.replicate 70000 0)).2
  rw [List.length_replicate]
  omega

/-- C10: the 16-bit index field of every control transfer issued by
read_control and write_control equals the adapter's stored interface
number, whatever the request-type byte decodes to; no parameter of either
operation feeds the index field. -/
theorem control_transfer_index_is_interface_number (st : DfuCrossUsb)
    (env : Env) (request_type request value : Nat) (buffer : List Nat) :
    ((st.read_control env request_type request value buffer).1).index =
      st.interface_number ∧
    ((st.write_control env request_type request value buffer).1).index =
      st.interface_number :=
  ⟨rfl, rfl⟩
